import Mathlib

set_option maxHeartbeats 1000000

/-!
Verification development for the repository analyzer: a shallow embedding of
the file-classification, file-selection and content-extraction routines of
`GitHubClient`, the metadata fetch `get_repo_info`, and the two-stage LLM
orchestration of `OpenAIAnalyzer` / `OllamaAnalyzer`, together with theorems
settling the specification claims about them.
-/

namespace CodeAssistant

/-- Python substring membership test `pat in s`, over the character lists of
the two strings. -/
def listContainsSub (pat : List Char) : List Char → Bool
  | [] => pat.isEmpty
  | c :: cs => pat.isPrefixOf (c :: cs) || listContainsSub pat cs

/-- Python `pat in s` on strings. -/
def strContainsSub (s pat : String) : Bool :=
  listContainsSub pat.toList s.toList

/-- Characters stripped by Python `str.strip()`. -/
def pyIsSpace (c : Char) : Bool :=
  c = ' ' || c = '\t' || c = '\n' || c = '\r' || c = '\x0b' || c = '\x0c'

/-- Python `str.strip()`: whitespace removed from both ends. -/
def pyStrip (s : String) : String :=
  String.mk (((s.toList.dropWhile pyIsSpace).reverse.dropWhile pyIsSpace).reverse)

/-- Python `str.startswith(pat)`. -/
def pyStartsWith (s pat : String) : Bool :=
  pat.toList.isPrefixOf s.toList

/-- Python `str.lower()` (ASCII case folding). -/
def pyLower (s : String) : String :=
  String.mk (s.toList.map Char.toLower)

/-- Python `str.split(sep)` for a one-character separator, over character
lists. -/
def splitOnChar (sep : Char) : List Char → List (List Char)
  | [] => [[]]
  | c :: rest =>
    let r := splitOnChar sep rest
    if c = sep then [] :: r
    else
      match r with
      | [] => [[c]]
      | g :: gs => (c :: g) :: gs

/-- Python `str.split(sep)` for a one-character separator, on strings. -/
def pySplitChar (sep : Char) (s : String) : List String :=
  (splitOnChar sep s.toList).map String.mk

/-- Python slicing `s[:n]`. -/
def pyTake (s : String) (n : Nat) : String :=
  String.mk (s.toList.take n)

/-- Python `len(s)` (a count of characters). -/
def pyLen (s : String) : Nat :=
  s.toList.length

/-- Fuel-driven worker for Python `str.replace(pat, rep)`: non-overlapping
occurrences replaced left to right. -/
def replaceAllFuel (pat rep : List Char) : Nat → List Char → List Char
  | _, [] => []
  | 0, cs => cs
  | fuel + 1, c :: cs =>
    if pat.isPrefixOf (c :: cs) then
      rep ++ replaceAllFuel pat rep fuel (cs.drop (pat.length - 1))
    else
      c :: replaceAllFuel pat rep fuel cs

/-- Python `str.replace(pat, rep)` for a non-empty pattern. -/
def pyReplace (s pat rep : String) : String :=
  String.mk (replaceAllFuel pat.toList rep.toList s.toList.length s.toList)

/-- The `FileType` enumeration of `models.py`. -/
inductive FileType where
  | source_code
  | documentation
  | configuration
  | test
  | asset
deriving DecidableEq, Repr

/-- The string payload of each `FileType` enum member (`FileType(str, Enum)`). -/
def FileType.value : FileType → String
  | .source_code => "source_code"
  | .documentation => "documentation"
  | .configuration => "configuration"
  | .test => "test"
  | .asset => "asset"

/-- The `CodeFile` record of `models.py`. -/
structure CodeFile where
  path : String
  content : String
  language : String
  size : Nat
  file_type : FileType
deriving DecidableEq, Repr

/-! ## GitHubClient.select_important_files -/

/-- The inner priority-scoring function of `GitHubClient.select_important_files`. -/
def get_priority_score (file : CodeFile) : Nat :=
  let filename := pyLower file.path
  let s1 : Nat := if ["main.py", "app.py", "__init__.py", "index.js", "index.ts"].any
      (fun n => strContainsSub filename n) then 100 else 0
  let s2 : Nat := if [".json", ".yaml", ".yml", ".toml", ".config"].any
      (fun e => strContainsSub filename e) then 50 else 0
  let s3 : Nat := if strContainsSub file.path "/" = false ∨ file.path.toList.count '/' ≤ 1
      then 30 else 0
  let s4 : Nat := if 1000 < file.size then 20 else 0
  let s5 : Nat := if file.file_type.value = "source_code" then 10 else 0
  s1 + s2 + s3 + s4 + s5

/-- `GitHubClient.select_important_files`: stable sort by descending priority
score, then truncate to `max_files` entries (Python `sorted(..., reverse=True)`
followed by slicing). -/
def select_important_files (code_files : List CodeFile) (max_files : Nat) : List CodeFile :=
  if code_files = [] then []
  else
    let sorted_files := code_files.mergeSort
      (fun a b => decide (get_priority_score b ≤ get_priority_score a))
    sorted_files.take max_files

/-! ## GitHubClient.extract_key_content -/

/-- The per-line filter of `GitHubClient.extract_key_content`: a line is kept
when it is not blank after stripping, is not a comment line and is not an
import/require line. -/
def keepLine (line : String) : Bool :=
  let stripped := pyStrip line
  !(stripped == "") &&
  !(pyStartsWith stripped "#" || pyStartsWith stripped "//" || pyStartsWith stripped "/*" ||
    pyStartsWith stripped "*" || pyStartsWith stripped "*/" || pyStartsWith stripped "<!--") &&
  !(pyStartsWith stripped "import " || pyStartsWith stripped "from " ||
    pyStartsWith stripped "require(" ||
    (pyStartsWith stripped "const " && strContainsSub stripped "require(") ||
    pyStartsWith stripped "import\x7b" || pyStartsWith stripped "import \x7b")

/-- The accumulation loop of `extract_key_content`: keep lines passing
`keepLine`, stopping as soon as 50 lines have been collected. -/
def extractLoop : List String → List String → List String
  | [], acc => acc.reverse
  | l :: ls, acc =>
    if keepLine l then
      if 50 ≤ (l :: acc).length then (l :: acc).reverse
      else extractLoop ls (l :: acc)
    else extractLoop ls acc

/-- The list of meaningful lines collected by `extract_key_content`. -/
def meaningfulLines (content : String) : List String :=
  extractLoop (pySplitChar '\n' content) []

/-- `GitHubClient.extract_key_content`. -/
def extract_key_content (file : CodeFile) : String :=
  String.intercalate "\n" (meaningfulLines file.content)

/-! ## GitHubClient.analyze_local_repo -/

/-- A regular file of the local repository tree, as seen by
`analyze_local_repo`: its path components relative to the repository root,
its on-disk size (`stat().st_size`) and its decoded text content. -/
structure FSEntry where
  parts : List String
  stSize : Nat
  content : String
deriving DecidableEq, Repr

/-- The file name (final path component). -/
def entryName (e : FSEntry) : String := e.parts.getLastD ""

/-- Python `pathlib` suffix: the substring from the last dot of the file name,
empty when the name has no dot or only a leading dot. -/
def pathSuffix (name : String) : String :=
  match ((List.range name.toList.length).filter
      (fun i => name.toList.getD i ' ' = '.')).getLast? with
  | some i => if 0 < i then String.mk (name.toList.drop i) else ""
  | none => ""

/-- The extension-to-(language, file type) dictionary of `analyze_local_repo`. -/
def extension_map : List (String × (String × FileType)) :=
  [(".py", ("python", .source_code)),
   (".js", ("javascript", .source_code)),
   (".ts", ("typescript", .source_code)),
   (".jsx", ("javascript", .source_code)),
   (".tsx", ("typescript", .source_code)),
   (".java", ("java", .source_code)),
   (".cpp", ("cpp", .source_code)),
   (".c", ("c", .source_code)),
   (".go", ("go", .source_code)),
   (".rs", ("rust", .source_code)),
   (".rb", ("ruby", .source_code)),
   (".php", ("php", .source_code)),
   (".md", ("markdown", .documentation)),
   (".txt", ("text", .documentation)),
   (".json", ("json", .configuration)),
   (".yaml", ("yaml", .configuration)),
   (".yml", ("yaml", .configuration)),
   (".toml", ("toml", .configuration))]

/-- The skipped directories of `analyze_local_repo`. -/
def skip_dirs : List String :=
  [".git", "node_modules", "__pycache__", ".venv", "venv", "dist", "build"]

/-- The filter condition of `analyze_local_repo`: mapped extension, no skipped
directory among the path components, and on-disk size within the bound. -/
def entryKeep (max_file_size : Nat) (e : FSEntry) : Bool :=
  (List.lookup (pathSuffix (entryName e)) extension_map).isSome &&
  !(skip_dirs.any (fun d => e.parts.contains d)) &&
  e.stSize ≤ max_file_size

/-- Construction of the `CodeFile` record for a kept entry, including the
test-file override on the lowercased file name. -/
def toCodeFile (e : FSEntry) : CodeFile :=
  let lf := (List.lookup (pathSuffix (entryName e)) extension_map).getD ("", .source_code)
  let lowname := pyLower (entryName e)
  { path := String.intercalate "/" e.parts,
    content := e.content,
    language := lf.1,
    size := e.content.length,
    file_type := if strContainsSub lowname "test" || strContainsSub lowname "spec"
      then FileType.test else lf.2 }

/-- `GitHubClient.analyze_local_repo` over a modelled file tree. -/
def analyze_local_repo (fs : List FSEntry) (max_file_size : Nat) : List CodeFile :=
  (fs.filter (entryKeep max_file_size)).map toCodeFile

/-! ## JSON values -/

/-- Decoded JSON values, as produced by `json.loads` (numbers modelled as
exact rationals). -/
inductive JVal where
  | null : JVal
  | bool : Bool → JVal
  | num : ℚ → JVal
  | str : String → JVal
  | arr : List JVal → JVal
  | obj : List (String × JVal) → JVal

/-! ## GitHubClient.get_repo_info -/

/-- `GitHubClient.get_repo_info`: the HTTP layer is a function from the
request URL to the response status and decoded JSON body. The owner/repo pair
is read off the URL after `str.replace` removes every occurrence of
`https://github.com/`. -/
def get_repo_info (httpGet : String → Nat × List (String × JVal))
    (repo_url : String) : List (String × JVal) :=
  let parts := pySplitChar '/' (pyReplace repo_url "https://github.com/" "")
  if 2 ≤ parts.length then
    let owner := parts.getD 0 ""
    let repo := parts.getD 1 ""
    let api_url := "https://api.github.com/repos/" ++ owner ++ "/" ++ repo
    let response := httpGet api_url
    if response.1 = 200 then response.2 else []
  else []

/-- Modelled from the spec claim wording for `get_repo_info`: the URL is
stripped of a leading `https://github.com/` prefix (only the leading
occurrence is removed), instead of the `str.replace` call of the source. -/
def get_repo_info_specStrip (httpGet : String → Nat × List (String × JVal))
    (repo_url : String) : List (String × JVal) :=
  let stripped := if pyStartsWith repo_url "https://github.com/"
    then String.mk (repo_url.toList.drop (pyLen "https://github.com/")) else repo_url
  let parts := pySplitChar '/' stripped
  if 2 ≤ parts.length then
    let owner := parts.getD 0 ""
    let repo := parts.getD 1 ""
    let api_url := "https://api.github.com/repos/" ++ owner ++ "/" ++ repo
    let response := httpGet api_url
    if response.1 = 200 then response.2 else []
  else []

/-! ## Helper lemmas -/

theorem listContainsSub_singleton (c : Char) (l : List Char) :
    listContainsSub [c] l = l.contains c := by
  induction l with
  | nil => rfl
  | cons a as ih =>
    simp only [listContainsSub, List.isPrefixOf, List.contains, List.elem, ih]
    cases c == a <;> simp

theorem count_slash_of_not_contains (s : String) (h : strContainsSub s "/" = false) :
    s.toList.count '/' = 0 := by
  have h1 : listContainsSub ['/'] s.toList = false := h
  rw [listContainsSub_singleton] at h1
  exact List.count_eq_zero.mpr (by simpa using h1)

theorem fileTypeValue_source (ft : FileType) :
    ft.value = "source_code" ↔ ft = FileType.source_code := by
  cases ft <;> simp [FileType.value]

theorem get_priority_score_formula (f : CodeFile) :
    get_priority_score f =
      (if ["main.py", "app.py", "__init__.py", "index.js", "index.ts"].any
          (fun n => strContainsSub (pyLower f.path) n) then 100 else 0) +
      (if [".json", ".yaml", ".yml", ".toml", ".config"].any
          (fun e => strContainsSub (pyLower f.path) e) then 50 else 0) +
      (if f.path.toList.count '/' ≤ 1 then 30 else 0) +
      (if 1000 < f.size then 20 else 0) +
      (if f.file_type = FileType.source_code then 10 else 0) := by
  have h3 : (strContainsSub f.path "/" = false ∨ f.path.toList.count '/' ≤ 1) ↔
      f.path.toList.count '/' ≤ 1 := by
    constructor
    · rintro (h | h)
      · have h0 : f.path.toList.count '/' = 0 := count_slash_of_not_contains f.path h
        omega
      · exact h
    · exact Or.inr
  simp only [get_priority_score]
  rw [if_congr h3 rfl rfl, if_congr (fileTypeValue_source f.file_type) rfl rfl]

/-- C3: `select_important_files` returns at most `max_files` elements of the
input list, ordered by non-increasing priority score, where the score is the
sum of the five heuristic bonuses, and the empty input yields the empty
list. -/
theorem select_important_files_spec (code_files : List CodeFile) (max_files : Nat) :
    (select_important_files code_files max_files).length ≤ max_files ∧
    (∀ f, f ∈ select_important_files code_files max_files → f ∈ code_files) ∧
    (select_important_files code_files max_files).Pairwise
      (fun a b => get_priority_score b ≤ get_priority_score a) ∧
    (∀ f : CodeFile, get_priority_score f =
      (if ["main.py", "app.py", "__init__.py", "index.js", "index.ts"].any
          (fun n => strContainsSub (pyLower f.path) n) then 100 else 0) +
      (if [".json", ".yaml", ".yml", ".toml", ".config"].any
          (fun e => strContainsSub (pyLower f.path) e) then 50 else 0) +
      (if f.path.toList.count '/' ≤ 1 then 30 else 0) +
      (if 1000 < f.size then 20 else 0) +
      (if f.file_type = FileType.source_code then 10 else 0)) ∧
    select_important_files [] max_files = [] := by
  refine ⟨?_, ?_, ?_, get_priority_score_formula, by simp [select_important_files]⟩
  · unfold select_important_files
    split
    · simp
    · exact List.length_take_le _ _
  · intro f hf
    unfold select_important_files at hf
    split at hf
    · simp at hf
    · have hm := List.take_subset _ _ hf
      rwa [List.mem_mergeSort] at hm
  · unfold select_important_files
    split
    · simp
    · refine List.Pairwise.sublist (List.take_sublist _ _) ?_
      have hs := @List.sorted_mergeSort CodeFile
        (fun a b : CodeFile => decide (get_priority_score b ≤ get_priority_score a))
        (fun a b c hab hbc => by
          simp only [decide_eq_true_eq] at *
          omega)
        (fun a b => by
          simp only [Bool.or_eq_true, decide_eq_true_eq]
          omega)
        code_files
      exact hs.imp (fun h => by simpa using h)

/-- Witness for C3 at a concrete input. -/
theorem select_important_files_spec_witness :
    CodeFile.mk "main.py" "x" "python" 2000 FileType.source_code ∈
      select_important_files [CodeFile.mk "main.py" "x" "python" 2000 FileType.source_code] 1 ∧
    CodeFile.mk "main.py" "x" "python" 2000 FileType.source_code ∈
      [CodeFile.mk "main.py" "x" "python" 2000 FileType.source_code] :=
  ⟨by simp [select_important_files], (select_important_files_spec
      [CodeFile.mk "main.py" "x" "python" 2000 FileType.source_code] 1).2.1
    (CodeFile.mk "main.py" "x" "python" 2000 FileType.source_code)
    (by simp [select_important_files])⟩

theorem extractLoop_eq (ls : List String) : ∀ acc : List String, acc.length < 50 →
    extractLoop ls acc = acc.reverse ++ (ls.filter keepLine).take (50 - acc.length) := by
  induction ls with
  | nil => intro acc h; simp [extractLoop]
  | cons l ls ih =>
    intro acc h
    by_cases hk : keepLine l = true
    · by_cases h49 : 50 ≤ acc.length + 1
      · have ha : 50 - acc.length = 1 := by omega
        simp [extractLoop, hk, h49, ha, List.filter_cons]
      · have ha : 50 - acc.length = (50 - (acc.length + 1)) + 1 := by omega
        have hlt : (l :: acc).length < 50 := by simp; omega
        simp only [extractLoop, hk, if_true, List.length_cons, if_neg h49]
        rw [ih (l :: acc) hlt]
        simp [List.filter_cons, hk, ha, List.take_succ_cons]
    · simp only [Bool.not_eq_true] at hk
      simp [extractLoop, hk, List.filter_cons, ih acc h]

theorem meaningfulLines_eq (content : String) :
    meaningfulLines content = ((pySplitChar '\n' content).filter keepLine).take 50 := by
  have h := extractLoop_eq (pySplitChar '\n' content) [] (by simp)
  simpa [meaningfulLines] using h

/-- C10: `extract_key_content` yields at most 50 lines, which are the first 50
lines of the file content that survive the comment/import/blank filters, kept
unmodified and in their original order (a sublist of the content's lines). -/
theorem extract_key_content_lines (file : CodeFile) :
    (meaningfulLines file.content).length ≤ 50 ∧
    (meaningfulLines file.content).Sublist (pySplitChar '\n' file.content) ∧
    meaningfulLines file.content =
      ((pySplitChar '\n' file.content).filter keepLine).take 50 ∧
    extract_key_content file = String.intercalate "\n" (meaningfulLines file.content) := by
  refine ⟨?_, ?_, meaningfulLines_eq file.content, rfl⟩
  · rw [meaningfulLines_eq]
    exact List.length_take_le _ _
  · rw [meaningfulLines_eq]
    exact (List.take_sublist _ _).trans (List.filter_sublist _)

/-- C4: every line kept by `extract_key_content` is non-blank after stripping,
is not a comment line and is not an import/require line. -/
theorem extract_key_content_filters (file : CodeFile) :
    extract_key_content file = String.intercalate "\n" (meaningfulLines file.content) ∧
    ∀ l ∈ meaningfulLines file.content,
      pyStrip l ≠ "" ∧
      pyStartsWith (pyStrip l) "#" = false ∧
      pyStartsWith (pyStrip l) "//" = false ∧
      pyStartsWith (pyStrip l) "/*" = false ∧
      pyStartsWith (pyStrip l) "*" = false ∧
      pyStartsWith (pyStrip l) "*/" = false ∧
      pyStartsWith (pyStrip l) "<!--" = false ∧
      pyStartsWith (pyStrip l) "import " = false ∧
      pyStartsWith (pyStrip l) "from " = false ∧
      pyStartsWith (pyStrip l) "require(" = false ∧
      pyStartsWith (pyStrip l) "import\x7b" = false ∧
      pyStartsWith (pyStrip l) "import \x7b" = false ∧
      ¬(pyStartsWith (pyStrip l) "const " = true ∧
        strContainsSub (pyStrip l) "require(" = true) := by
  refine ⟨rfl, ?_⟩
  intro l hl
  rw [meaningfulLines_eq] at hl
  have hf := List.of_mem_filter (List.mem_of_mem_take hl)
  simp only [keepLine, Bool.and_eq_true, Bool.not_eq_true', Bool.or_eq_false_iff] at hf
  obtain ⟨⟨h1, ⟨⟨⟨⟨c1, c2⟩, c3⟩, c4⟩, c5⟩, c6⟩, ⟨⟨⟨⟨i1, i2⟩, i3⟩, i4⟩, i5⟩, i6⟩ := hf
  refine ⟨?_, c1, c2, c3, c4, c5, c6, i1, i2, i3, i5, i6, ?_⟩
  · intro he
    rw [he] at h1
    simp at h1
  · rintro ⟨ha, hb⟩
    rw [ha, hb] at i4
    simp at i4

/-- Witness for C4 at a concrete input. -/
theorem extract_key_content_filters_witness :
    "code1" ∈ meaningfulLines "import os\n# c\n\ncode1" ∧
    pyStrip "code1" ≠ "" :=
  ⟨by decide,
   ((extract_key_content_filters
      (CodeFile.mk "a.py" "import os\n# c\n\ncode1" "python" 5 FileType.source_code)).2
    "code1" (by decide)).1⟩

theorem lookup_isSome_mem_keys {β : Type} (s : String) (m : List (String × β))
    (h : (List.lookup s m).isSome = true) : s ∈ m.map Prod.fst := by
  induction m with
  | nil => simp [List.lookup] at h
  | cons kv m ih =>
    obtain ⟨k, v⟩ := kv
    rw [List.lookup] at h
    by_cases hks : (s == k) = true
    · simp only [List.map_cons]
      rw [show s = k from eq_of_beq hks]
      exact List.mem_cons_self _ _
    · have hks2 : (s == k) = false := by simpa using hks
      rw [hks2] at h
      exact List.mem_cons_of_mem _ (ih h)

theorem lookup_mem_values {β : Type} (s : String) (m : List (String × β)) (v : β)
    (h : List.lookup s m = some v) : v ∈ m.map Prod.snd := by
  induction m with
  | nil => simp [List.lookup] at h
  | cons kv m ih =>
    obtain ⟨k, w⟩ := kv
    rw [List.lookup] at h
    by_cases hks : (s == k) = true
    · rw [hks] at h
      simp only [Option.some.injEq] at h
      simp [h]
    · have hks2 : (s == k) = false := by simpa using hks
      rw [hks2] at h
      simp [ih h]

/-- C5: every `CodeFile` produced by `analyze_local_repo` comes from a tree
entry with a mapped extension, no skipped directory among its path components,
and on-disk size within `max_file_size`. -/
theorem analyze_local_repo_filter_rules (fs : List FSEntry) (max_file_size : Nat)
    (f : CodeFile) (hf : f ∈ analyze_local_repo fs max_file_size) :
    ∃ e, e ∈ fs ∧ f = toCodeFile e ∧
      pathSuffix (entryName e) ∈ [".py", ".js", ".ts", ".jsx", ".tsx", ".java", ".cpp",
        ".c", ".go", ".rs", ".rb", ".php", ".md", ".txt", ".json", ".yaml", ".yml", ".toml"] ∧
      (∀ d ∈ e.parts, d ∉ skip_dirs) ∧
      e.stSize ≤ max_file_size := by
  unfold analyze_local_repo at hf
  obtain ⟨e, he, rfl⟩ := List.mem_map.mp hf
  obtain ⟨hin, hkeep⟩ := List.mem_filter.mp he
  simp only [entryKeep, Bool.and_eq_true, Bool.not_eq_true', decide_eq_true_eq] at hkeep
  obtain ⟨⟨hext, hskip⟩, hsize⟩ := hkeep
  refine ⟨e, hin, rfl, ?_, ?_, hsize⟩
  · have hm := lookup_isSome_mem_keys _ _ hext
    simpa [extension_map] using hm
  · intro d hd hds
    rw [List.any_eq_false] at hskip
    have hc := hskip d hds
    simp only [List.contains_eq_any_beq, List.any_eq_true, not_exists, not_and] at hc
    exact absurd (by simp) (hc d hd)

/-- Witness for C5 at a concrete input. -/
theorem analyze_local_repo_filter_rules_witness :
    ∃ e, e ∈ [FSEntry.mk ["main.py"] 1 "x"] ∧
      toCodeFile (FSEntry.mk ["main.py"] 1 "x") = toCodeFile e ∧
      pathSuffix (entryName e) ∈ [".py", ".js", ".ts", ".jsx", ".tsx", ".java", ".cpp",
        ".c", ".go", ".rs", ".rb", ".php", ".md", ".txt", ".json", ".yaml", ".yml", ".toml"] ∧
      (∀ d ∈ e.parts, d ∉ skip_dirs) ∧
      e.stSize ≤ 100 :=
  analyze_local_repo_filter_rules [FSEntry.mk ["main.py"] 1 "x"] 100
    (toCodeFile (FSEntry.mk ["main.py"] 1 "x")) (by decide)

/-- C6: every `CodeFile` produced by `analyze_local_repo` carries the language
and file type of its extension in the extension map, with the file type
overridden to `test` when the lowercased file name contains `test` or `spec`;
the `asset` category is never produced. -/
theorem analyze_local_repo_tagging (fs : List FSEntry) (max_file_size : Nat)
    (f : CodeFile) (hf : f ∈ analyze_local_repo fs max_file_size) :
    ∃ e, e ∈ fs ∧ ∃ lang ft,
      List.lookup (pathSuffix (entryName e)) extension_map = some (lang, ft) ∧
      f.language = lang ∧
      f.file_type = (if strContainsSub (pyLower (entryName e)) "test" ||
          strContainsSub (pyLower (entryName e)) "spec"
        then FileType.test else ft) ∧
      f.file_type ≠ FileType.asset := by
  unfold analyze_local_repo at hf
  obtain ⟨e, he, rfl⟩ := List.mem_map.mp hf
  obtain ⟨hin, hkeep⟩ := List.mem_filter.mp he
  simp only [entryKeep, Bool.and_eq_true] at hkeep
  obtain ⟨lf, hlf⟩ := Option.isSome_iff_exists.mp hkeep.1.1
  have hval : lf.2 ≠ FileType.asset := by
    have hm := lookup_mem_values _ _ _ hlf
    have hall : ∀ p ∈ extension_map.map Prod.snd, p.2 ≠ FileType.asset := by decide
    exact hall lf hm
  refine ⟨e, hin, lf.1, lf.2, by rw [hlf], ?_, ?_, ?_⟩
  · simp [toCodeFile, hlf]
  · simp [toCodeFile, hlf]
  · simp only [toCodeFile, hlf, Option.getD_some]
    split
    · simp
    · simpa using hval

/-- Witness for C6 at a concrete input. -/
theorem analyze_local_repo_tagging_witness :
    ∃ e, e ∈ [FSEntry.mk ["test_app.py"] 1 "y"] ∧ ∃ lang ft,
      List.lookup (pathSuffix (entryName e)) extension_map = some (lang, ft) ∧
      (toCodeFile (FSEntry.mk ["test_app.py"] 1 "y")).language = lang ∧
      (toCodeFile (FSEntry.mk ["test_app.py"] 1 "y")).file_type =
        (if strContainsSub (pyLower (entryName e)) "test" ||
            strContainsSub (pyLower (entryName e)) "spec"
          then FileType.test else ft) ∧
      (toCodeFile (FSEntry.mk ["test_app.py"] 1 "y")).file_type ≠ FileType.asset :=
  analyze_local_repo_tagging [FSEntry.mk ["test_app.py"] 1 "y"] 100
    (toCodeFile (FSEntry.mk ["test_app.py"] 1 "y")) (by decide)

/-- C7 counterexample: `get_repo_info` removes every occurrence of
`https://github.com/` (Python `str.replace`), not only a leading prefix. On a
URL containing the marker twice, the prefix-stripped reading of the claim
still has at least two slash-separated parts and the stubbed HTTP layer
answers 200 with a non-empty body, yet the code returns the empty dict. -/
theorem get_repo_info_claim_cex :
    2 ≤ (pySplitChar '/' (String.mk
      ("https://github.com/https://github.com/a".toList.drop
        (pyLen "https://github.com/")))).length ∧
    (fun _ : String => ((200 : Nat), [("name", JVal.str "x")]))
        "https://api.github.com/repos/https:/" = (200, [("name", JVal.str "x")]) ∧
    get_repo_info (fun _ => (200, [("name", JVal.str "x")]))
        "https://github.com/https://github.com/a" = [] ∧
    get_repo_info_specStrip (fun _ => (200, [("name", JVal.str "x")]))
        "https://github.com/https://github.com/a" = [("name", JVal.str "x")] ∧
    ([] : List (String × JVal)) ≠ [("name", JVal.str "x")] :=
  ⟨by decide, rfl, rfl, rfl, by simp⟩

/-- C7 amended: `get_repo_info` returns the decoded body of the single GET to
`https://api.github.com/repos/owner/repo` when the URL, after every occurrence
of `https://github.com/` is replaced by the empty string, splits on `/` into
at least two parts (owner and repo being the first two) and the response
status is 200; in every other case it returns the empty dict. -/
theorem get_repo_info_amended (httpGet : String → Nat × List (String × JVal))
    (repo_url : String) :
    (2 ≤ (pySplitChar '/' (pyReplace repo_url "https://github.com/" "")).length →
      get_repo_info httpGet repo_url =
        (let parts := pySplitChar '/' (pyReplace repo_url "https://github.com/" "")
         let response := httpGet ("https://api.github.com/repos/" ++
           parts.getD 0 "" ++ "/" ++ parts.getD 1 "")
         if response.1 = 200 then response.2 else [])) ∧
    ((pySplitChar '/' (pyReplace repo_url "https://github.com/" "")).length < 2 →
      get_repo_info httpGet repo_url = []) := by
  constructor
  · intro h
    simp only [get_repo_info, if_pos h]
  · intro h
    simp only [get_repo_info]
    rw [if_neg (by omega)]

/-- Witness for the amended C7 at a concrete input. -/
theorem get_repo_info_amended_witness :
    get_repo_info (fun _ => (200, [("ok", JVal.str "v")])) "https://github.com/o/r" =
      [("ok", JVal.str "v")] := by
  have h := (get_repo_info_amended (fun _ => (200, [("ok", JVal.str "v")]))
    "https://github.com/o/r").1 (by decide)
  exact h.trans (by rfl)

/-! ## Decoded JSON values and pydantic-style validation -/

/-- The uncaught Python exceptions the analyzers can raise. -/
inductive PyErr where
  | attributeError
  | typeError
  | validationError
deriving DecidableEq, Repr

mutual

/-- Python `repr()` of a decoded JSON value. -/
def pyRepr : JVal → String
  | .null => "None"
  | .bool true => "True"
  | .bool false => "False"
  | .num q => if q.den = 1 then toString q.num else toString q
  | .str s => "\x27" ++ s ++ "\x27"
  | .arr xs => "[" ++ String.intercalate ", " (pyReprList xs) ++ "]"
  | .obj kvs => "\x7b" ++ String.intercalate ", " (pyReprObj kvs) ++ "\x7d"

/-- `repr()` of the elements of a JSON array. -/
def pyReprList : List JVal → List String
  | [] => []
  | v :: vs => pyRepr v :: pyReprList vs

/-- `repr()` of the entries of a JSON object. -/
def pyReprObj : List (String × JVal) → List String
  | [] => []
  | (k, v) :: kvs => ("\x27" ++ k ++ "\x27: " ++ pyRepr v) :: pyReprObj kvs

end

/-- Python `str()` of a decoded JSON value, as interpolated into an
f-string. -/
def pyStr : JVal → String
  | .str s => s
  | v => pyRepr v

/-- Python `d.get(key, default)` on a decoded JSON value: raises
`AttributeError` when the value is not an object. -/
def JVal.getAttrD : JVal → String → JVal → Except PyErr JVal
  | .obj kvs, k, d => .ok ((List.lookup k kvs).getD d)
  | _, _, _ => .error .attributeError

/-- `dict.get(key, default)` on a genuine dict. -/
def dGetD (kvs : List (String × JVal)) (k : String) (d : JVal) : JVal :=
  (List.lookup k kvs).getD d

/-- `repo_info.get(key, default)` as interpolated into an f-string. -/
def rInfoStr (repo_info : List (String × JVal)) (k : String) (d : JVal) : String :=
  pyStr ((List.lookup k repo_info).getD d)

/-- The string payload of a JSON string value. -/
def jvalAsStr : JVal → Option String
  | .str s => some s
  | _ => none

/-- Python `sep.join(x)` on a decoded JSON value: a list joins when all its
elements are strings, a string joins its characters, an object joins its
keys, and anything else raises `TypeError`. -/
def pyJoinJ (sep : String) : JVal → Except PyErr String
  | .arr xs =>
    match xs.mapM jvalAsStr with
    | some ss => .ok (String.intercalate sep ss)
    | none => .error .typeError
  | .str s => .ok (String.intercalate sep (s.toList.map (fun c => String.mk [c])))
  | .obj kvs => .ok (String.intercalate sep (kvs.map Prod.fst))
  | _ => .error .typeError

/-- The `TechnologyStack` record of `models.py`. -/
structure TechnologyStack where
  languages : List String
  frameworks : List String
  libraries : List String
  tools : List String
  databases : List String
deriving DecidableEq, Repr

/-- The `CodeInsight` record of `models.py`. -/
structure CodeInsight where
  category : String
  severity : String
  description : String
  file_path : Option String
  line_number : Option Int
  suggestion : String
deriving DecidableEq, Repr

/-- The `RepositoryAnalysis` record of `models.py` (scores as exact
rationals; pydantic's coercion of numeric strings is not modelled). -/
structure RepositoryAnalysis where
  repo_url : String
  summary : String
  tech_stack : TechnologyStack
  insights : List CodeInsight
  documentation_score : ℚ
  code_quality_score : ℚ
  maintainability_score : ℚ
  trending_comparisons : List String
  recommendations : List String
deriving DecidableEq, Repr

/-- Pydantic validation of a `str` field. -/
def pyStrVal : JVal → Except PyErr String
  | .str s => .ok s
  | _ => .error .validationError

/-- Pydantic validation of a `List[str]` field. -/
def pyStrListVal : JVal → Except PyErr (List String)
  | .arr xs =>
    match xs.mapM jvalAsStr with
    | some ss => .ok ss
    | none => .error .validationError
  | _ => .error .validationError

/-- Pydantic validation of an `Optional[str]` field. -/
def pyOptStrVal : JVal → Except PyErr (Option String)
  | .null => .ok none
  | .str s => .ok (some s)
  | _ => .error .validationError

/-- Pydantic validation of an `Optional[int]` field (an integral number is
accepted). -/
def pyOptIntVal : JVal → Except PyErr (Option Int)
  | .null => .ok none
  | .num q => if q.den = 1 then .ok (some q.num) else .error .validationError
  | _ => .error .validationError

/-- Pydantic validation of a `float` field (numbers only; string coercion not
modelled). -/
def pyFloatVal : JVal → Except PyErr ℚ
  | .num q => .ok q
  | _ => .error .validationError

/-- A required pydantic field: missing keys fail validation. -/
def reqField (kvs : List (String × JVal)) (k : String) : Except PyErr JVal :=
  match List.lookup k kvs with
  | some v => .ok v
  | none => .error .validationError

/-- `TechnologyStack(**v)`: `v` must be a mapping (else `TypeError` from the
`**` unpacking) and the five required list-of-string fields must validate;
extra keys are ignored. -/
def mkTechnologyStack : JVal → Except PyErr TechnologyStack
  | .obj kvs =>
    match (reqField kvs "languages").bind pyStrListVal,
          (reqField kvs "frameworks").bind pyStrListVal,
          (reqField kvs "libraries").bind pyStrListVal,
          (reqField kvs "tools").bind pyStrListVal,
          (reqField kvs "databases").bind pyStrListVal with
    | .ok a, .ok b, .ok c, .ok d, .ok e => .ok ⟨a, b, c, d, e⟩
    | _, _, _, _, _ => .error .validationError
  | _ => .error .typeError

/-- `CodeInsight(**v)`. -/
def mkCodeInsight : JVal → Except PyErr CodeInsight
  | .obj kvs =>
    match (reqField kvs "category").bind pyStrVal,
          (reqField kvs "severity").bind pyStrVal,
          (reqField kvs "description").bind pyStrVal,
          (reqField kvs "file_path").bind pyOptStrVal,
          (reqField kvs "line_number").bind pyOptIntVal,
          (reqField kvs "suggestion").bind pyStrVal with
    | .ok c, .ok s, .ok d, .ok fp, .ok ln, .ok sg => .ok ⟨c, s, d, fp, ln, sg⟩
    | _, _, _, _, _, _ => .error .validationError
  | _ => .error .typeError

/-- The `insights` loop of `_create_analysis_object`: iterate the value and
construct a `CodeInsight` from every element (iterating a string yields its
characters and iterating a dict yields its keys, so any non-empty such value
raises `TypeError` at the `**` unpacking; non-iterables raise at the loop). -/
def pyIterInsights : JVal → Except PyErr (List CodeInsight)
  | .arr xs => xs.mapM mkCodeInsight
  | .str s => if s.toList.isEmpty then .ok [] else .error .typeError
  | .obj kvs => if kvs.isEmpty then .ok [] else .error .typeError
  | _ => .error .typeError

/-- Whether a decoded JSON value is an object (Python
`isinstance(x, dict)`). -/
def jvalIsObj : JVal → Bool
  | .obj _ => true
  | _ => false

/-- The Ollama insights comprehension: non-dict elements are dropped by the
`isinstance(insight, dict)` guard before construction. -/
def pyIterInsightsOllama : JVal → Except PyErr (List CodeInsight)
  | .arr xs => (xs.filter jvalIsObj).mapM mkCodeInsight
  | .str _ => .ok []
  | .obj _ => .ok []
  | _ => .error .typeError

/-- `OpenAIAnalyzer._create_analysis_object`. -/
def _create_analysis_object (data : List (String × JVal)) (repo_url : String) :
    Except PyErr RepositoryAnalysis :=
  match mkTechnologyStack (dGetD data "tech_stack" (.obj [])) with
  | .error e => .error e
  | .ok tech_stack =>
    match pyIterInsights (dGetD data "insights" (.arr [])) with
    | .error e => .error e
    | .ok insights =>
      match pyStrVal (dGetD data "summary" (.str "")),
            pyFloatVal (dGetD data "documentation_score" (.num 0)),
            pyFloatVal (dGetD data "code_quality_score" (.num 0)),
            pyFloatVal (dGetD data "maintainability_score" (.num 0)),
            pyStrListVal (dGetD data "trending_comparisons" (.arr [])),
            pyStrListVal (dGetD data "recommendations" (.arr [])) with
      | .ok summary, .ok ds, .ok cs, .ok ms, .ok tc, .ok recs =>
        .ok { repo_url := repo_url, summary := summary, tech_stack := tech_stack,
              insights := insights, documentation_score := ds,
              code_quality_score := cs, maintainability_score := ms,
              trending_comparisons := tc, recommendations := recs }
      | _, _, _, _, _, _ => .error .validationError

/-! ## Settings and the LLM endpoint -/

/-- The defaulted fields of `config.settings.Settings` used by the
analyzers. -/
structure Settings where
  analysis_model : String
  reasoning_model : String
  ollama_base_url : String
  ollama_model : String
  max_analysis_files : Nat
  max_file_content_chars : Nat
  max_file_size : Nat

/-- The settings instance of `config/settings.py` with its default values. -/
def settings : Settings :=
  { analysis_model := "gpt-4o-mini", reasoning_model := "gpt-4o",
    ollama_base_url := "http://localhost:11434",
    ollama_model := "deepseek-coder:6.7b",
    max_analysis_files := 10, max_file_content_chars := 5000,
    max_file_size := 100000 }

/-- One chat-completion request issued by `OpenAIAnalyzer`: model name,
prompt and token cap. The endpoint is modelled as a function from these to
the reply text or an exception. -/
structure LLMCall where
  model : String
  prompt : String
  max_tokens : Nat
deriving DecidableEq, Repr

/-! ## OpenAIAnalyzer -/

/-- The summarization prompt of `OpenAIAnalyzer.summarize_large_files`. -/
def sumPrompt (file : CodeFile) : String :=
  "Summarize this " ++ file.language ++
  " file in 2-3 sentences. Focus on its main purpose and key functionality.\n\nFile: " ++
  file.path ++ "\nContent:\n" ++ pyTake file.content settings.max_file_content_chars

/-- One iteration of `OpenAIAnalyzer.summarize_large_files`: large files are
summarized by a `gpt-4o-mini` call (with a fixed fallback line when the call
raises), small files get a stock one-liner and no call. -/
def summarize_one (chat : String → String → Nat → Except Unit String)
    (file : CodeFile) : String × List LLMCall :=
  if settings.max_file_content_chars < pyLen file.content then
    match chat settings.analysis_model (sumPrompt file) 100 with
    | .ok text => (file.path ++ ": " ++ pyStrip text,
        [{ model := settings.analysis_model, prompt := sumPrompt file, max_tokens := 100 }])
    | .error _ => (file.path ++ ": Large " ++ file.language ++ " file (" ++
        toString file.size ++ " bytes)",
        [{ model := settings.analysis_model, prompt := sumPrompt file, max_tokens := 100 }])
  else
    (file.path ++ ": " ++ file.language ++ " file (" ++ toString file.size ++ " bytes)", [])

/-- `OpenAIAnalyzer.summarize_large_files`, together with the calls it
issues. -/
def summarize_large_files (chat : String → String → Nat → Except Unit String) :
    List CodeFile → List String × List LLMCall
  | [] => ([], [])
  | f :: fs =>
    let sc := summarize_one chat f
    let rest := summarize_large_files chat fs
    (sc.1 :: rest.1, sc.2 ++ rest.2)

/-- `OpenAIAnalyzer._prepare_lightweight_context`, together with the calls it
issues. -/
def _prepare_lightweight_context (chat : String → String → Nat → Except Unit String)
    (code_files : List CodeFile) (repo_info : List (String × JVal)) :
    String × List LLMCall :=
  let s := summarize_large_files chat code_files
  ("\nRepository: " ++ rInfoStr repo_info "name" (.str "Unknown") ++
   "\nDescription: " ++ rInfoStr repo_info "description" (.str "No description") ++
   "\nLanguage: " ++ rInfoStr repo_info "language" (.str "Multiple") ++
   "\nStars: " ++ rInfoStr repo_info "stargazers_count" (.num 0) ++
   "\nForks: " ++ rInfoStr repo_info "forks_count" (.num 0) ++
   "\n\nFile Structure Summary:\n" ++
   String.join (s.1.map (fun x => "  - " ++ x ++ "\n")), s.2)

/-- The stage-1 overview prompt of `OpenAIAnalyzer.analyze_repository`. -/
def stage1Prompt (repo_url lightweight_context : String) : String :=
  "Provide a quick overview of this repository: " ++ repo_url ++ "\n\n" ++
  lightweight_context ++
  "\n\nRespond with a brief analysis (max 500 tokens) covering:\n" ++
  "1. Repository purpose and main functionality\n" ++
  "2. Primary technologies used\n" ++
  "3. Overall architecture assessment\n\nFormat as JSON:\n" ++
  "\x7b\n    \"summary\": \"brief description\",\n    \"primary_tech\": [\"main technologies\"],\n    \"architecture_notes\": \"brief architecture assessment\"\n\x7d"

/-- The stage-1 fallback object substituted when the overview reply fails to
parse as JSON (or the call raises). -/
def stage1Fallback : JVal :=
  .obj [("summary", .str "Repository analysis"), ("primary_tech", .arr []),
        ("architecture_notes", .str "")]

/-- The empty tech-stack object of the stage-2 fallback. -/
def emptyTechJ : JVal :=
  .obj [("languages", .arr []), ("frameworks", .arr []), ("libraries", .arr []),
        ("tools", .arr []), ("databases", .arr [])]

/-- The stage-2 fallback object substituted when the detailed reply fails to
parse as JSON (or the call raises). -/
def stage2Fallback : JVal :=
  .obj [("tech_stack", emptyTechJ), ("insights", .arr []),
        ("documentation_score", .num (1/2)), ("code_quality_score", .num (1/2)),
        ("maintainability_score", .num (1/2)), ("recommendations", .arr [])]

/-- One guarded stage of `analyze_repository`: issue the chat call, parse the
reply with `json.loads`, and substitute the fallback object when either step
raises. The issued call is returned alongside. -/
def runStage (chat : String → String → Nat → Except Unit String)
    (jsonLoads : String → Option JVal) (model prompt : String) (max_tokens : Nat)
    (fallback : JVal) : JVal × LLMCall :=
  let call : LLMCall := { model := model, prompt := prompt, max_tokens := max_tokens }
  match chat model prompt max_tokens with
  | .error _ => (fallback, call)
  | .ok text =>
    match jsonLoads text with
    | none => (fallback, call)
    | some v => (v, call)

/-- The stage-1 run of `OpenAIAnalyzer.analyze_repository`. -/
def openaiStage1Run (chat : String → String → Nat → Except Unit String)
    (jsonLoads : String → Option JVal) (code_files : List CodeFile)
    (repo_info : List (String × JVal)) (repo_url : String) : JVal × LLMCall :=
  runStage chat jsonLoads settings.analysis_model
    (stage1Prompt repo_url (_prepare_lightweight_context chat code_files repo_info).1)
    500 stage1Fallback

/-- The per-file block of the stage-2 detailed context: key content for
source files, truncated raw content otherwise. -/
def fileBlock (file : CodeFile) : String :=
  let content := if file.file_type.value = "source_code" then extract_key_content file
    else pyTake file.content settings.max_file_content_chars
  "\nFile: " ++ file.path ++ " (" ++ file.language ++ ")\n" ++ content ++ "\n\n---\n"

/-- The stage-2 detailed context of `OpenAIAnalyzer.analyze_repository`. -/
def detailedContext (repo_info : List (String × JVal)) (s1sum : JVal)
    (techStr : String) (important_files : List CodeFile) : String :=
  "\nRepository: " ++ rInfoStr repo_info "name" (.str "Unknown") ++ " - " ++
  pyStr s1sum ++ "\nKey Technologies: " ++ techStr ++
  "\n\nImportant Files Analysis:\n" ++
  String.join (important_files.map fileBlock)

/-- The stage-2 detailed prompt of `OpenAIAnalyzer.analyze_repository`. -/
def stage2Prompt (detailed_context : String) : String :=
  "Provide detailed analysis of this repository\x27s key files.\n\n" ++
  detailed_context ++
  "\n\nProvide comprehensive analysis (max 1000 tokens) as JSON:\n" ++
  "\x7b\n    \"tech_stack\": \x7b\n        \"languages\": [\"detected languages\"],\n        \"frameworks\": [\"detected frameworks\"], \n        \"libraries\": [\"detected libraries\"],\n        \"tools\": [\"detected tools\"],\n        \"databases\": [\"detected databases\"]\n    \x7d,\n    \"insights\": [\n        \x7b\n            \"category\": \"bug|improvement|architecture|performance\",\n            \"severity\": \"low|medium|high|critical\",\n            \"description\": \"detailed issue description\", \n            \"file_path\": \"path/to/file.py\",\n            \"line_number\": null,\n            \"suggestion\": \"specific improvement suggestion\"\n        \x7d\n    ],\n    \"documentation_score\": 0.75,\n    \"code_quality_score\": 0.85,\n    \"maintainability_score\": 0.80,\n    \"recommendations\": [\"specific actionable recommendations\"]\n\x7d"

/-- The stage-2 run of `OpenAIAnalyzer.analyze_repository`, whose prompt is
built from the stage-1 summary and joined technologies. -/
def openaiStage2Run (chat : String → String → Nat → Except Unit String)
    (jsonLoads : String → Option JVal) (code_files : List CodeFile)
    (repo_info : List (String × JVal)) (s1sum : JVal) (techStr : String) :
    JVal × LLMCall :=
  runStage chat jsonLoads settings.reasoning_model
    (stage2Prompt (detailedContext repo_info s1sum techStr
      (select_important_files code_files settings.max_analysis_files)))
    1000 stage2Fallback

/-- The combined dict built by `analyze_repository` from the two stages
(`trending_comparisons` is hard-coded empty). -/
def combineStages (s1sum ts2 ins2 d2 c2 m2 r2 : JVal) : List (String × JVal) :=
  [("summary", s1sum), ("tech_stack", ts2), ("insights", ins2),
   ("documentation_score", d2), ("code_quality_score", c2),
   ("maintainability_score", m2), ("trending_comparisons", .arr []),
   ("recommendations", r2)]

/-- `OpenAIAnalyzer.analyze_repository`: two guarded LLM stages merged into a
`RepositoryAnalysis`, returned together with the list of issued calls. The
`.get` accesses on the parsed stage data sit outside the guarded blocks, so a
stage reply that parses to a non-object raises `AttributeError`, and the
final construction can raise a validation error. -/
def OpenAI_analyze_repository (chat : String → String → Nat → Except Unit String)
    (jsonLoads : String → Option JVal) (code_files : List CodeFile)
    (repo_info : List (String × JVal)) (repo_url : String) :
    Except PyErr RepositoryAnalysis × List LLMCall :=
  let sumCalls := (_prepare_lightweight_context chat code_files repo_info).2
  let st1 := openaiStage1Run chat jsonLoads code_files repo_info repo_url
  match JVal.getAttrD st1.1 "summary" (.str ""),
        JVal.getAttrD st1.1 "primary_tech" (.arr []) with
  | .ok s1sum, .ok s1tech =>
    (match pyJoinJ ", " s1tech with
     | .error e => (.error e, sumCalls ++ [st1.2])
     | .ok techStr =>
       let st2 := openaiStage2Run chat jsonLoads code_files repo_info s1sum techStr
       match JVal.getAttrD st2.1 "tech_stack" (.obj []),
             JVal.getAttrD st2.1 "insights" (.arr []),
             JVal.getAttrD st2.1 "documentation_score" (.num (1/2)),
             JVal.getAttrD st2.1 "code_quality_score" (.num (1/2)),
             JVal.getAttrD st2.1 "maintainability_score" (.num (1/2)),
             JVal.getAttrD st2.1 "recommendations" (.arr []) with
       | .ok ts2, .ok ins2, .ok d2, .ok c2, .ok m2, .ok r2 =>
         (_create_analysis_object (combineStages s1sum ts2 ins2 d2 c2 m2 r2) repo_url,
          sumCalls ++ [st1.2, st2.2])
       | _, _, _, _, _, _ => (.error .attributeError, sumCalls ++ [st1.2, st2.2]))
  | _, _ => (.error .attributeError, sumCalls ++ [st1.2])

/-! ## OllamaAnalyzer -/

/-- `OllamaAnalyzer._make_request`: the HTTP layer is a function from prompt
and `num_predict` to the `response` field of the decoded reply (or an
exception from the request or `raise_for_status`); the result is stripped. -/
def ollama_make_request (post : String → Nat → Except Unit String)
    (prompt : String) (max_tokens : Nat) : Except Unit String :=
  (post prompt max_tokens).map pyStrip

/-- One iteration of `OllamaAnalyzer.summarize_large_files`. -/
def ollama_summarize_one (post : String → Nat → Except Unit String)
    (file : CodeFile) : String :=
  if settings.max_file_content_chars < pyLen file.content then
    match ollama_make_request post
        ("Summarize this " ++ file.language ++ " file in 2-3 sentences:\n" ++
          pyTake file.content settings.max_file_content_chars) 100 with
    | .ok summary => file.path ++ ": " ++ summary
    | .error _ => file.path ++ ": Large " ++ file.language ++ " file (" ++
        toString file.size ++ " bytes)"
  else
    file.path ++ ": " ++ file.language ++ " file (" ++ toString file.size ++ " bytes)"

/-- `OllamaAnalyzer.summarize_large_files`. -/
def ollama_summarize_large_files (post : String → Nat → Except Unit String)
    (files : List CodeFile) : List String :=
  files.map (ollama_summarize_one post)

/-- The stage-1 fallback object of `OllamaAnalyzer.analyze_repository`. -/
def ollamaStage1Fallback : JVal :=
  .obj [("summary", .str "Repository analysis"), ("primary_tech", .arr [])]

/-- `OllamaAnalyzer.analyze_repository`: the same two guarded stages, with
the insights comprehension guarded by `isinstance(insight, dict)` and
`trending_comparisons` hard-coded empty. -/
def Ollama_analyze_repository (post : String → Nat → Except Unit String)
    (jsonLoads : String → Option JVal) (code_files : List CodeFile)
    (repo_info : List (String × JVal)) (repo_url : String) :
    Except PyErr RepositoryAnalysis :=
  let summaries := ollama_summarize_large_files post code_files
  let context := "Repository: " ++ rInfoStr repo_info "name" (.str "Unknown") ++
    "\nDescription: " ++ rInfoStr repo_info "description" (.str "No description") ++
    "\n\nFiles: " ++ String.intercalate "\n" (summaries.take 10)
  let stage1_prompt := "Analyze this repository: " ++ repo_url ++ "\n" ++ context ++
    "\n\nProvide a brief overview as JSON:\n\x7b\"summary\": \"brief description\", \"primary_tech\": [\"main technologies\"]\x7d"
  let stage1_data :=
    match ollama_make_request post stage1_prompt 300 with
    | .error _ => ollamaStage1Fallback
    | .ok text =>
      match jsonLoads text with
      | none => ollamaStage1Fallback
      | some v => v
  let important_files := select_important_files code_files settings.max_analysis_files
  match JVal.getAttrD stage1_data "summary" (.str "") with
  | .error e => .error e
  | .ok s1sum =>
    let detailed_context := "Repository: " ++ pyStr s1sum ++ "\n\nKey Files:\n" ++
      String.join (important_files.map (fun file =>
        "\n" ++ file.path ++ ":\n" ++
        (if file.file_type.value = "source_code" then extract_key_content file
         else pyTake file.content settings.max_file_content_chars) ++ "\n---\n"))
    let stage2_prompt := "Analyze these key files:\n" ++ detailed_context ++
      "\n\nProvide analysis as JSON:\n\x7b\n    \"tech_stack\": \x7b\"languages\": [], \"frameworks\": [], \"libraries\": [], \"tools\": [], \"databases\": []\x7d,\n    \"insights\": [\x7b\"category\": \"improvement\", \"severity\": \"medium\", \"description\": \"issue\", \"file_path\": \"file.py\", \"line_number\": null, \"suggestion\": \"fix\"\x7d],\n    \"documentation_score\": 0.75,\n    \"code_quality_score\": 0.85,\n    \"maintainability_score\": 0.80,\n    \"recommendations\": [\"recommendation\"]\n\x7d"
    let stage2_data :=
      match ollama_make_request post stage2_prompt 800 with
      | .error _ => stage2Fallback
      | .ok text =>
        match jsonLoads text with
        | none => stage2Fallback
        | some v => v
    match JVal.getAttrD stage2_data "tech_stack" (.obj []) with
    | .error e => .error e
    | .ok ts2 =>
      match mkTechnologyStack ts2 with
      | .error e => .error e
      | .ok tech_stack =>
        match JVal.getAttrD stage2_data "insights" (.arr []) with
        | .error e => .error e
        | .ok ins2 =>
          match pyIterInsightsOllama ins2 with
          | .error e => .error e
          | .ok insights =>
            match JVal.getAttrD stage2_data "documentation_score" (.num (1/2)),
                  JVal.getAttrD stage2_data "code_quality_score" (.num (1/2)),
                  JVal.getAttrD stage2_data "maintainability_score" (.num (1/2)),
                  JVal.getAttrD stage2_data "recommendations" (.arr []) with
            | .ok d2, .ok c2, .ok m2, .ok r2 =>
              match pyStrVal s1sum, pyFloatVal d2, pyFloatVal c2, pyFloatVal m2,
                    pyStrListVal r2 with
              | .ok summary, .ok ds, .ok cs, .ok ms, .ok recs =>
                .ok { repo_url := repo_url, summary := summary,
                      tech_stack := tech_stack, insights := insights,
                      documentation_score := ds, code_quality_score := cs,
                      maintainability_score := ms, trending_comparisons := [],
                      recommendations := recs }
              | _, _, _, _, _ => .error .validationError
            | _, _, _, _ => .error .attributeError

/-! ## Theorems about the analyzers -/

theorem runStage_call (chat : String → String → Nat → Except Unit String)
    (jsonLoads : String → Option JVal) (m p : String) (k : Nat) (fb : JVal) :
    (runStage chat jsonLoads m p k fb).2 = ⟨m, p, k⟩ := by
  unfold runStage
  cases hc : chat m p k with
  | error e => rfl
  | ok t => cases hj : jsonLoads t <;> simp [hj]

theorem runStage_fst_of_none (chat : String → String → Nat → Except Unit String)
    (jsonLoads : String → Option JVal) (hj : ∀ s, jsonLoads s = none)
    (m p : String) (k : Nat) (fb : JVal) :
    (runStage chat jsonLoads m p k fb).1 = fb := by
  unfold runStage
  cases hc : chat m p k with
  | error e => rfl
  | ok t => simp [hj]

theorem summarize_calls_model (chat : String → String → Nat → Except Unit String)
    (files : List CodeFile) :
    ∀ c ∈ (summarize_large_files chat files).2, c.model = settings.analysis_model := by
  induction files with
  | nil =>
    intro c hc
    simp [summarize_large_files] at hc
  | cons f fs ih =>
    intro c hc
    simp only [summarize_large_files] at hc
    rw [List.mem_append] at hc
    rcases hc with hc | hc
    · unfold summarize_one at hc
      split at hc
      · split at hc <;> simp_all
      · simp at hc
    · exact ih c hc

theorem create_analysis_object_fields (data : List (String × JVal)) (repo_url : String)
    (r : RepositoryAnalysis) (h : _create_analysis_object data repo_url = .ok r) :
    r.repo_url = repo_url ∧
    pyStrVal (dGetD data "summary" (.str "")) = .ok r.summary ∧
    mkTechnologyStack (dGetD data "tech_stack" (.obj [])) = .ok r.tech_stack ∧
    pyIterInsights (dGetD data "insights" (.arr [])) = .ok r.insights ∧
    pyFloatVal (dGetD data "documentation_score" (.num 0)) = .ok r.documentation_score ∧
    pyFloatVal (dGetD data "code_quality_score" (.num 0)) = .ok r.code_quality_score ∧
    pyFloatVal (dGetD data "maintainability_score" (.num 0)) = .ok r.maintainability_score ∧
    pyStrListVal (dGetD data "trending_comparisons" (.arr [])) = .ok r.trending_comparisons ∧
    pyStrListVal (dGetD data "recommendations" (.arr [])) = .ok r.recommendations := by
  unfold _create_analysis_object at h
  repeat' split at h
  all_goals simp_all
  subst h
  simp

/-- C9: both analyzers hard-code `trending_comparisons` to the empty list:
whatever the LLM replies contain, any returned `RepositoryAnalysis` carries
an empty `trending_comparisons` field. -/
theorem trending_comparisons_empty (chat : String → String → Nat → Except Unit String)
    (post : String → Nat → Except Unit String) (jsonLoads : String → Option JVal)
    (code_files : List CodeFile) (repo_info : List (String × JVal)) (repo_url : String) :
    (∀ r, (OpenAI_analyze_repository chat jsonLoads code_files repo_info repo_url).1 = .ok r →
      r.trending_comparisons = []) ∧
    (∀ r, Ollama_analyze_repository post jsonLoads code_files repo_info repo_url = .ok r →
      r.trending_comparisons = []) := by
  constructor
  · intro r h
    simp only [OpenAI_analyze_repository] at h
    repeat' split at h
    all_goals simp at h
    have h9 : (Except.ok ([] : List String) : Except PyErr (List String)) =
        .ok r.trending_comparisons :=
      (create_analysis_object_fields _ repo_url r h).2.2.2.2.2.2.2.1
    exact (Except.ok.inj h9).symm
  · intro r h
    simp only [Ollama_analyze_repository] at h
    repeat' split at h
    all_goals simp at h
    rw [← h]

/-- Witness for C9 at a concrete input. -/
theorem trending_comparisons_empty_witness :
    (RepositoryAnalysis.mk "u" "Repository analysis" ⟨[], [], [], [], []⟩ []
      (1/2) (1/2) (1/2) [] []).trending_comparisons = [] :=
  (trending_comparisons_empty (fun _ _ _ => .error ()) (fun _ _ => .error ())
    (fun _ => none) [] [] "u").1
    (RepositoryAnalysis.mk "u" "Repository analysis" ⟨[], [], [], [], []⟩ []
      (1/2) (1/2) (1/2) [] []) rfl

/-- C1 counterexample: the stage-1 reply parses to a well-formed overview
object and the stage-2 reply parses to the JSON object written `\x7b\x7d` — it
parses, so no fallback applies and it is used as-is — yet the final
`TechnologyStack(**\x7b\x7d)` construction raises a validation error, so
`analyze_repository` returns no `RepositoryAnalysis` for this reply text. -/
theorem openai_error_handling_cex :
    (fun t => if t == "T1"
        then some (JVal.obj [("summary", JVal.str "s"), ("primary_tech", JVal.arr []),
          ("architecture_notes", JVal.str "")])
        else if t == "T2" then some (JVal.obj []) else none) "T2" =
      some (JVal.obj []) ∧
    (OpenAI_analyze_repository
        (fun m _ _ => .ok (if m == "gpt-4o" then "T2" else "T1"))
        (fun t => if t == "T1"
          then some (JVal.obj [("summary", JVal.str "s"), ("primary_tech", JVal.arr []),
            ("architecture_notes", JVal.str "")])
          else if t == "T2" then some (JVal.obj []) else none)
        [] [] "u").1 = .error PyErr.validationError :=
  ⟨rfl, rfl⟩

/-- C1 amended: a reply that parses as JSON is used as-is by each guarded
stage regardless of which keys it contains, the stage fallback object is
substituted exactly when the call raises or the reply fails to parse — no
other failure handling exists — and when no reply parses the analysis
returns the merged placeholder record; a parsed reply of unexpected shape
instead makes `analyze_repository` raise. -/
theorem openai_error_handling (chat : String → String → Nat → Except Unit String)
    (jsonLoads : String → Option JVal) (code_files : List CodeFile)
    (repo_info : List (String × JVal)) (repo_url : String) :
    (∀ m p k fb t v, chat m p k = .ok t → jsonLoads t = some v →
      runStage chat jsonLoads m p k fb = (v, ⟨m, p, k⟩)) ∧
    (∀ m p k fb t, chat m p k = .ok t → jsonLoads t = none →
      runStage chat jsonLoads m p k fb = (fb, ⟨m, p, k⟩)) ∧
    (∀ m p k fb e, chat m p k = .error e →
      runStage chat jsonLoads m p k fb = (fb, ⟨m, p, k⟩)) ∧
    ((∀ s, jsonLoads s = none) →
      (OpenAI_analyze_repository chat jsonLoads code_files repo_info repo_url).1 =
        .ok { repo_url := repo_url, summary := "Repository analysis",
              tech_stack := ⟨[], [], [], [], []⟩, insights := [],
              documentation_score := 1/2, code_quality_score := 1/2,
              maintainability_score := 1/2, trending_comparisons := [],
              recommendations := [] }) := by
  refine ⟨?_, ?_, ?_, ?_⟩
  · intro m p k fb t v hc hj
    unfold runStage
    rw [hc]
    simp [hj]
  · intro m p k fb t hc hj
    unfold runStage
    rw [hc]
    simp [hj]
  · intro m p k fb e hc
    unfold runStage
    rw [hc]
  · intro hj
    have h1 : (openaiStage1Run chat jsonLoads code_files repo_info repo_url).1 =
        stage1Fallback := by
      simp only [openaiStage1Run]
      exact runStage_fst_of_none chat jsonLoads hj _ _ _ _
    have h2 : ∀ sv ts, (openaiStage2Run chat jsonLoads code_files repo_info sv ts).1 =
        stage2Fallback := by
      intro sv ts
      simp only [openaiStage2Run]
      exact runStage_fst_of_none chat jsonLoads hj _ _ _ _
    simp only [OpenAI_analyze_repository, h1, h2]
    rfl

/-- Witness for the amended C1 at a concrete input. -/
theorem openai_error_handling_witness :
    (OpenAI_analyze_repository (fun _ _ _ => .ok "x") (fun _ => none) [] [] "u").1 =
      .ok { repo_url := "u", summary := "Repository analysis",
            tech_stack := ⟨[], [], [], [], []⟩, insights := [],
            documentation_score := 1/2, code_quality_score := 1/2,
            maintainability_score := 1/2, trending_comparisons := [],
            recommendations := [] } :=
  (openai_error_handling (fun _ _ _ => .ok "x") (fun _ => none) [] [] "u").2.2.2
    (fun _ => rfl)

/-- C8 counterexample: a stage-1 reply parsing to the JSON array `[]` makes
the unguarded `stage1_data.get(...)` access raise `AttributeError`, so
`OpenAIAnalyzer.analyze_repository` returns no `RepositoryAnalysis` on this
input at all. -/
theorem schema_population_cex :
    (fun _ : String => some (JVal.arr [])) "T1" = some (JVal.arr []) ∧
    (OpenAI_analyze_repository (fun _ _ _ => .ok "T1") (fun _ => some (JVal.arr []))
        [] [] "u").1 = .error PyErr.attributeError :=
  ⟨rfl, rfl⟩

/-- C8 amended: whenever both stage replies fail to parse, each analyzer
returns a `RepositoryAnalysis` populating every field of the fixed schema
(the placeholder record); a reply parsing to JSON of unexpected shape can
instead raise, so the population guarantee holds for every call that
returns. -/
theorem schema_population (chat : String → String → Nat → Except Unit String)
    (post : String → Nat → Except Unit String) (jsonLoads : String → Option JVal)
    (code_files : List CodeFile) (repo_info : List (String × JVal)) (repo_url : String)
    (hc : ∀ m p k, chat m p k = .error ()) (hp : ∀ p k, post p k = .error ()) :
    (OpenAI_analyze_repository chat jsonLoads code_files repo_info repo_url).1 =
      .ok { repo_url := repo_url, summary := "Repository analysis",
            tech_stack := ⟨[], [], [], [], []⟩, insights := [],
            documentation_score := 1/2, code_quality_score := 1/2,
            maintainability_score := 1/2, trending_comparisons := [],
            recommendations := [] } ∧
    Ollama_analyze_repository post jsonLoads code_files repo_info repo_url =
      .ok { repo_url := repo_url, summary := "Repository analysis",
            tech_stack := ⟨[], [], [], [], []⟩, insights := [],
            documentation_score := 1/2, code_quality_score := 1/2,
            maintainability_score := 1/2, trending_comparisons := [],
            recommendations := [] } := by
  constructor
  · have hrs : ∀ m p k fb, (runStage chat jsonLoads m p k fb).1 = fb := by
      intro m p k fb
      unfold runStage
      rw [hc]
    have h1 : (openaiStage1Run chat jsonLoads code_files repo_info repo_url).1 =
        stage1Fallback := by
      simp only [openaiStage1Run]
      exact hrs _ _ _ _
    have h2 : ∀ sv ts, (openaiStage2Run chat jsonLoads code_files repo_info sv ts).1 =
        stage2Fallback := by
      intro sv ts
      simp only [openaiStage2Run]
      exact hrs _ _ _ _
    simp only [OpenAI_analyze_repository, h1, h2]
    rfl
  · have ho : ∀ p k, ollama_make_request post p k = .error () := by
      intro p k
      simp [ollama_make_request, hp, Except.map]
    simp only [Ollama_analyze_repository, ho]
    rfl

/-- Witness for the amended C8 at a concrete input. -/
theorem schema_population_witness :
    (OpenAI_analyze_repository (fun _ _ _ => .error ()) (fun _ => none) [] [] "w").1 =
      .ok { repo_url := "w", summary := "Repository analysis",
            tech_stack := ⟨[], [], [], [], []⟩, insights := [],
            documentation_score := 1/2, code_quality_score := 1/2,
            maintainability_score := 1/2, trending_comparisons := [],
            recommendations := [] } ∧
    Ollama_analyze_repository (fun _ _ => .error ()) (fun _ => none) [] [] "w" =
      .ok { repo_url := "w", summary := "Repository analysis",
            tech_stack := ⟨[], [], [], [], []⟩, insights := [],
            documentation_score := 1/2, code_quality_score := 1/2,
            maintainability_score := 1/2, trending_comparisons := [],
            recommendations := [] } :=
  schema_population (fun _ _ _ => .error ()) (fun _ _ => .error ()) (fun _ => none)
    [] [] "w" (fun _ _ _ => rfl) (fun _ _ => rfl)

/-- C2: `OpenAIAnalyzer.analyze_repository` performs exactly two sequential
LLM stages — the cheap overview call (model `settings.analysis_model`, and
any preparatory summarization calls also use that model) issued before the
expensive detailed call (model `settings.reasoning_model`) — and merges the
parsed stages into one record: the returned analysis takes its summary from
stage 1, its tech stack, insights, three scores and recommendations from
stage 2, and its `repo_url` from the argument. -/
theorem openai_two_stage_merge (chat : String → String → Nat → Except Unit String)
    (jsonLoads : String → Option JVal) (code_files : List CodeFile)
    (repo_info : List (String × JVal)) (repo_url : String) :
    ∀ r, (OpenAI_analyze_repository chat jsonLoads code_files repo_info repo_url).1 =
        .ok r →
      r.repo_url = repo_url ∧
      (∀ c ∈ (_prepare_lightweight_context chat code_files repo_info).2,
        c.model = settings.analysis_model) ∧
      (openaiStage1Run chat jsonLoads code_files repo_info repo_url).2.model =
        settings.analysis_model ∧
      (openaiStage1Run chat jsonLoads code_files repo_info repo_url).2.max_tokens = 500 ∧
      ∃ sv tv ts,
        JVal.getAttrD (openaiStage1Run chat jsonLoads code_files repo_info repo_url).1
          "summary" (.str "") = .ok sv ∧
        pyStrVal sv = .ok r.summary ∧
        JVal.getAttrD (openaiStage1Run chat jsonLoads code_files repo_info repo_url).1
          "primary_tech" (.arr []) = .ok tv ∧
        pyJoinJ ", " tv = .ok ts ∧
        (openaiStage2Run chat jsonLoads code_files repo_info sv ts).2.model =
          settings.reasoning_model ∧
        (openaiStage2Run chat jsonLoads code_files repo_info sv ts).2.max_tokens = 1000 ∧
        (OpenAI_analyze_repository chat jsonLoads code_files repo_info repo_url).2 =
          (_prepare_lightweight_context chat code_files repo_info).2 ++
          [(openaiStage1Run chat jsonLoads code_files repo_info repo_url).2,
           (openaiStage2Run chat jsonLoads code_files repo_info sv ts).2] ∧
        ∃ tsv insv dv cv mv rv,
          JVal.getAttrD (openaiStage2Run chat jsonLoads code_files repo_info sv ts).1
            "tech_stack" (.obj []) = .ok tsv ∧
          mkTechnologyStack tsv = .ok r.tech_stack ∧
          JVal.getAttrD (openaiStage2Run chat jsonLoads code_files repo_info sv ts).1
            "insights" (.arr []) = .ok insv ∧
          pyIterInsights insv = .ok r.insights ∧
          JVal.getAttrD (openaiStage2Run chat jsonLoads code_files repo_info sv ts).1
            "documentation_score" (.num (1/2)) = .ok dv ∧
          pyFloatVal dv = .ok r.documentation_score ∧
          JVal.getAttrD (openaiStage2Run chat jsonLoads code_files repo_info sv ts).1
            "code_quality_score" (.num (1/2)) = .ok cv ∧
          pyFloatVal cv = .ok r.code_quality_score ∧
          JVal.getAttrD (openaiStage2Run chat jsonLoads code_files repo_info sv ts).1
            "maintainability_score" (.num (1/2)) = .ok mv ∧
          pyFloatVal mv = .ok r.maintainability_score ∧
          JVal.getAttrD (openaiStage2Run chat jsonLoads code_files repo_info sv ts).1
            "recommendations" (.arr []) = .ok rv ∧
          pyStrListVal rv = .ok r.recommendations := by
  intro r h
  simp only [OpenAI_analyze_repository] at h
  split at h
  · rename_i s1sum s1tech hs ht
    split at h
    · simp at h
    · rename_i ts hjn
      split at h
      · rename_i ts2 ins2 d2 c2 m2 r2 h2t h2i h2d h2c h2m h2r
        simp only [Prod.fst] at h
        have hcf := create_analysis_object_fields _ repo_url r h
        have htr : (OpenAI_analyze_repository chat jsonLoads code_files repo_info
            repo_url).2 =
            (_prepare_lightweight_context chat code_files repo_info).2 ++
            [(openaiStage1Run chat jsonLoads code_files repo_info repo_url).2,
             (openaiStage2Run chat jsonLoads code_files repo_info s1sum ts).2] := by
          simp only [OpenAI_analyze_repository]
          rw [hs, ht]
          simp only [hjn, h2t, h2i, h2d, h2c, h2m, h2r]
        refine ⟨hcf.1, fun c hc2 => summarize_calls_model chat code_files c hc2,
          by simp [openaiStage1Run, runStage_call],
          by simp [openaiStage1Run, runStage_call],
          s1sum, s1tech, ts, hs, hcf.2.1, ht, hjn,
          by simp [openaiStage2Run, runStage_call],
          by simp [openaiStage2Run, runStage_call],
          htr, ts2, ins2, d2, c2, m2, r2,
          h2t, hcf.2.2.1, h2i, hcf.2.2.2.1,
          h2d, hcf.2.2.2.2.1, h2c, hcf.2.2.2.2.2.1,
          h2m, hcf.2.2.2.2.2.2.1, h2r, hcf.2.2.2.2.2.2.2.2⟩
      · simp at h
  · simp at h

/-- A concrete chat endpoint exercising the two-stage pipeline. -/
def chatDemo : String → String → Nat → Except Unit String :=
  fun m _ _ => .ok (if m == "gpt-4o" then "T2" else "T1")

/-- A concrete parse table for the demo replies. -/
def jsonDemo : String → Option JVal :=
  fun t =>
    if t == "T1" then
      some (.obj [("summary", .str "S"), ("primary_tech", .arr [.str "python"]),
        ("architecture_notes", .str "")])
    else if t == "T2" then
      some (.obj [("tech_stack", .obj [("languages", .arr [.str "python"]),
          ("frameworks", .arr []), ("libraries", .arr []), ("tools", .arr []),
          ("databases", .arr [])]),
        ("insights", .arr []), ("documentation_score", .num (3/4)),
        ("code_quality_score", .num (4/5)), ("maintainability_score", .num (1/2)),
        ("recommendations", .arr [.str "r1"])])
    else none

/-- Witness for C2 at a concrete input. -/
theorem openai_two_stage_merge_witness :
    (RepositoryAnalysis.mk "u" "S" ⟨["python"], [], [], [], []⟩ []
      (3/4) (4/5) (1/2) [] ["r1"]).repo_url = "u" :=
  (openai_two_stage_merge chatDemo jsonDemo [] [] "u"
    (RepositoryAnalysis.mk "u" "S" ⟨["python"], [], [], [], []⟩ []
      (3/4) (4/5) (1/2) [] ["r1"]) rfl).1

end CodeAssistant
